import Mathlib

/-!
# Verification of the Companies House API proxy gateway

A shallow embedding of `companies-house-search/server.py` (Flask gateway):
the endpoint allowlist validator, parameter sanitizers, the metadata
request helper `ch_api_request`, the document-content route with its
size-capped streaming generator, the static-asset gate, and the
security-header middleware, together with theorems settling the spec's
claims about them.

Conventions of the embedding:
* Python strings are `String` / `List Char`; paths are ASCII.
* `re.match(r'^...$', s)` is embedded by an anchored matcher.  Python's
  `$` matches at the end of the string or just before a final newline,
  so the matchers accept an optional single trailing `'\n'`.
* Each allowlist regex has the shape  literal-prefix, one character-class
  run with a length bound, literal-suffix, `$`.  Since no class contains
  `'/'` or `'\n'` and every nonempty suffix starts with `'/'`, greedy
  `takeWhile` matching is equivalent to the regex with backtracking.
* `try/except` control flow becomes explicit branching on an inductive
  description of the upstream outcome; machine behaviour of the HTTP
  libraries is modelled from their documented semantics where the
  gateway calls into them.
-/

/-- Regex class `[0-9]` (`c.toNat` comparisons keep proofs in `Nat`). -/
def isDigitChar (c : Char) : Bool :=
  48 ≤ c.toNat && c.toNat ≤ 57

/-- Regex class `[A-Z]`. -/
def isUpperAlpha (c : Char) : Bool :=
  65 ≤ c.toNat && c.toNat ≤ 90

/-- Regex class `[a-z]`. -/
def isLowerAlpha (c : Char) : Bool :=
  97 ≤ c.toNat && c.toNat ≤ 122

/-- Regex class `[A-Z0-9]` — the class used in `ALLOWED_ENDPOINTS`. -/
def isUpperAlnum (c : Char) : Bool :=
  isUpperAlpha c || isDigitChar c

/-- Regex class `[A-Z0-9]` under `re.IGNORECASE`, i.e. `[A-Za-z0-9]` —
the class of the route handlers' company-number check. -/
def isAlnumCI (c : Char) : Bool :=
  isUpperAlpha c || isLowerAlpha c || isDigitChar c

/-- Regex class `[a-zA-Z0-9_-]` — officer and document identifiers. -/
def isIdChar (c : Char) : Bool :=
  isUpperAlpha c || isLowerAlpha c || isDigitChar c || c = '_' || c = '-'

/-- Python's `$` anchor: end of string, or just before one final newline. -/
def pyDollarEnd (rest : List Char) : Bool :=
  rest = [] || rest = ['\n']

/-- Anchored match of `^pre CLS{minLen,} suf $` against `s` (the shape of
every pattern in `ALLOWED_ENDPOINTS`).  Greedy `takeWhile` is equivalent
to regex backtracking here because `cls` never matches `'/'` or `'\n'`
and `suf` is empty or starts with `'/'`. -/
def reMatchRun (pre : List Char) (cls : Char → Bool) (minLen : Nat)
    (suf : List Char) (s : List Char) : Bool :=
  pre.isPrefixOf s &&
    (let rest := s.drop pre.length
     let mid := rest.takeWhile cls
     let tail := rest.dropWhile cls
     decide (minLen ≤ mid.length) && suf.isPrefixOf tail &&
       pyDollarEnd (tail.drop suf.length))

/-- Anchored match of `^CLS{minLen,maxLen}$` against `s` (the shape of the
route handlers' identifier checks). -/
def reMatchBounded (cls : Char → Bool) (minLen maxLen : Nat)
    (s : List Char) : Bool :=
  let mid := s.takeWhile cls
  decide (minLen ≤ mid.length && mid.length ≤ maxLen) &&
    pyDollarEnd (s.dropWhile cls)

/-- `r'^/company/[A-Z0-9]{8,}$'`. -/
def pat_company_profile (s : List Char) : Bool :=
  reMatchRun "/company/".toList isUpperAlnum 8 [] s

/-- `r'^/company/[A-Z0-9]{8,}/persons-with-significant-control$'`. -/
def pat_company_psc (s : List Char) : Bool :=
  reMatchRun "/company/".toList isUpperAlnum 8
    "/persons-with-significant-control".toList s

/-- `r'^/company/[A-Z0-9]{8,}/filing-history$'`. -/
def pat_company_filing_history (s : List Char) : Bool :=
  reMatchRun "/company/".toList isUpperAlnum 8 "/filing-history".toList s

/-- `r'^/company/[A-Z0-9]{8,}/charges$'`. -/
def pat_company_charges (s : List Char) : Bool :=
  reMatchRun "/company/".toList isUpperAlnum 8 "/charges".toList s

/-- `r'^/company/[A-Z0-9]{8,}/officers$'`. -/
def pat_company_officers (s : List Char) : Bool :=
  reMatchRun "/company/".toList isUpperAlnum 8 "/officers".toList s

/-- `r'^/search/companies$'`. -/
def pat_search_companies (s : List Char) : Bool :=
  reMatchRun "/search/companies".toList (fun _ => false) 0 [] s

/-- `r'^/search/officers$'`. -/
def pat_search_officers (s : List Char) : Bool :=
  reMatchRun "/search/officers".toList (fun _ => false) 0 [] s

/-- `r'^/officers/[a-zA-Z0-9_-]+/appointments$'`. -/
def pat_officer_appointments (s : List Char) : Bool :=
  reMatchRun "/officers/".toList isIdChar 1 "/appointments".toList s

/-- The fixed allowlist `ALLOWED_ENDPOINTS` (eight compiled patterns). -/
def ALLOWED_ENDPOINTS : List (List Char → Bool) :=
  [pat_company_profile, pat_company_psc, pat_company_filing_history,
   pat_company_charges, pat_company_officers, pat_search_companies,
   pat_search_officers, pat_officer_appointments]

/-- `validate_endpoint`: true iff some allowlist pattern matches. -/
def validate_endpoint (endpoint : String) : Bool :=
  ALLOWED_ENDPOINTS.any (fun pat => pat endpoint.toList)

/-- The route handlers' company-number format check
`re.match(r'^[A-Z0-9]{6,8}$', company_number, re.IGNORECASE)`. -/
def matchCompanyNumberCI (s : List Char) : Bool :=
  reMatchBounded isAlnumCI 6 8 s

/-- The officer-id / document-id format check
`re.match(r'^[a-zA-Z0-9_-]{1,100}$', s)`. -/
def matchIdentifier (s : List Char) : Bool :=
  reMatchBounded isIdChar 1 100 s

/-- Python `str.upper()` restricted to the ASCII range: the handlers apply
`.upper()` only to strings that already passed the `[A-Za-z0-9]` (plus
optional trailing newline) check, where ASCII uppercasing is exact.
`Char.toUpper` maps `[a-z]` to `[A-Z]` and fixes everything else. -/
def pyUpper (s : String) : String :=
  String.mk (s.data.map Char.toUpper)

/-- Python `str.lower()` restricted likewise (used on file extensions and
header names). -/
def pyLower (s : String) : String :=
  String.mk (s.data.map Char.toLower)

/-- `sanitize_integer_param(value, default, min_val=1, max_val=1000)`.
The `value` argument is the outcome of Python's `int(value)`:
`some n` when the conversion succeeds, `none` when it raises
`ValueError`/`TypeError` (non-numeric or empty input), in which case the
`except` branch returns `default`.  On success the code returns
`max(min_val, min(int_val, max_val))`. -/
def sanitize_integer_param (value : Option Int) (default : Int)
    (min_val : Int := 1) (max_val : Int := 1000) : Int :=
  match value with
  | some int_val => max min_val (min int_val max_val)
  | none => default

/-- Python `int(s)` on a decimal string: optional surrounding whitespace,
optional sign, then at least one digit (digit-group underscores are not
modelled; no input in this development uses them). -/
def digitsToNat (ds : List Char) : Nat :=
  ds.foldl (fun acc c => acc * 10 + (c.toNat - 48)) 0

/-- See `digitsToNat`; `none` models `int()` raising `ValueError`. -/
def parsePyInt (s : String) : Option Int :=
  let cs := ((s.data.dropWhile Char.isWhitespace).reverse.dropWhile
    Char.isWhitespace).reverse
  match cs with
  | '+' :: ds =>
      if ds ≠ [] && ds.all isDigitChar then some (digitsToNat ds) else none
  | '-' :: ds =>
      if ds ≠ [] && ds.all isDigitChar then some (-(digitsToNat ds : Int))
      else none
  | ds =>
      if ds ≠ [] && ds.all isDigitChar then some (digitsToNat ds) else none

/-- Body of a response the gateway hands to the caller.
* `fixed msg` — `jsonify({'error': msg})`, a fixed generic string;
* `passthrough json` — `jsonify(response.json())`, the upstream JSON
  document forwarded verbatim;
* `streamed chunks` — `Response(generate(), ...)` on the document route
  (chunks are byte lists; byte values are abstract `Nat`s). -/
inductive Body where
  | fixed (msg : String)
  | passthrough (json : String)
  | streamed (chunks : List (List Nat))
  deriving DecidableEq, Repr

/-- What the gateway returns for one inbound request.  `callPath` is
`some p` exactly when the outbound HTTP request to the upstream was
issued, with `p` the upstream path. -/
structure GatewayResult where
  callPath : Option String
  status : Nat
  body : Body
  deriving DecidableEq, Repr

/-- Outcome of `requests.get` on the metadata API, as the `try/except`
blocks distinguish it.
* `responds st bodyJson?` — an HTTP response arrived with status `st`;
  `bodyJson? = some j` when `response.json()` succeeds with document `j`,
  `none` when the body is not valid JSON (then `response.json()` raises
  `requests.exceptions.JSONDecodeError`, which since requests 2.27 is a
  subclass of `requests.exceptions.RequestException`);
* `timeout` — `requests.exceptions.Timeout`;
* `connectionError` — any other `requests.exceptions.RequestException`. -/
inductive UpstreamBehavior where
  | responds (status : Nat) (bodyJson? : Option String)
  | timeout
  | connectionError
  deriving DecidableEq, Repr

/-- `ch_api_request(endpoint, query_params)`: the helper every metadata
route goes through.  Mirrors the source's branch order: missing key →
500; `validate_endpoint` failure → 400; then the request is issued and
the status dispatch runs (401, 404, otherwise
`jsonify(response.json()), response.status_code`), with the `except`
clauses for timeout (504), transport error (502, which also catches the
JSON-decode failure, see `UpstreamBehavior`) and any other exception
(500). -/
def ch_api_request (apiKeyPresent : Bool) (endpoint : String)
    (upstream : UpstreamBehavior) : GatewayResult :=
  if !apiKeyPresent then
    ⟨none, 500, .fixed "Server configuration error"⟩
  else if !validate_endpoint endpoint then
    ⟨none, 400, .fixed "Invalid endpoint requested"⟩
  else
    match upstream with
    | .timeout => ⟨some endpoint, 504, .fixed "Request timeout"⟩
    | .connectionError =>
        ⟨some endpoint, 502, .fixed "External service error"⟩
    | .responds st bodyJson? =>
        if st = 401 then
          ⟨some endpoint, 401, .fixed "Authentication failed"⟩
        else if st = 404 then
          ⟨some endpoint, 404, .fixed "Resource not found"⟩
        else
          match bodyJson? with
          | some j => ⟨some endpoint, st, .passthrough j⟩
          | none => ⟨some endpoint, 502, .fixed "External service error"⟩

/-- Route handler `get_company_profile` (`/api/company/<company_number>`):
format check first (case-insensitive 6–8 alphanumerics), then
`ch_api_request(f'/company/{company_number.upper()}')`. -/
def get_company_profile (apiKeyPresent : Bool) (company_number : String)
    (upstream : UpstreamBehavior) : GatewayResult :=
  if !matchCompanyNumberCI company_number.toList then
    ⟨none, 400, .fixed "Invalid company number format"⟩
  else
    ch_api_request apiKeyPresent ("/company/" ++ pyUpper company_number)
      upstream

/-- The 50 MiB streaming ceiling (`max_size = 50 * 1024 * 1024`). -/
def MAX_SIZE : Nat := 50 * 1024 * 1024

/-- One step of the generator in `get_document_content`: running total
`downloaded`, then for each chunk `downloaded += len(chunk)`, break
without yielding once the total exceeds `max_size`, else yield. -/
def generateAux (downloaded : Nat) : List (List Nat) → List (List Nat)
  | [] => []
  | chunk :: rest =>
      let d := downloaded + chunk.length
      if MAX_SIZE < d then [] else chunk :: generateAux d rest

/-- The `generate()` generator, started with `downloaded = 0`; its value
is the sequence of yielded chunks. -/
def generate (chunks : List (List Nat)) : List (List Nat) :=
  generateAux 0 chunks

/-- Total number of bytes in a chunk sequence. -/
def totalLen (chunks : List (List Nat)) : Nat :=
  (chunks.map List.length).sum

/-- Upstream outcome for the document API (`requests.get(..., stream=True)`).
On a response, `chunks` is the byte stream `response.iter_content`
produces in 8 KiB pieces. -/
inductive DocUpstream where
  | responds (status : Nat) (chunks : List (List Nat))
  | timeout
  | connectionError
  deriving DecidableEq, Repr

/-- Route handler `get_document_content`
(`/api/document/<document_id>/content`): key check, document-id format
check, then the outbound call to
`DOCUMENT_API_BASE_URL + '/document/{document_id}/content'` — with no
`validate_endpoint` step — followed by the non-200 branch and the
streamed 200 response. -/
def get_document_content (apiKeyPresent : Bool) (document_id : String)
    (upstream : DocUpstream) : GatewayResult :=
  if !apiKeyPresent then
    ⟨none, 500, .fixed "Server configuration error"⟩
  else if !matchIdentifier document_id.toList then
    ⟨none, 400, .fixed "Invalid document ID format"⟩
  else
    let path := "/document/" ++ document_id ++ "/content"
    match upstream with
    | .timeout => ⟨some path, 504, .fixed "Request timeout"⟩
    | .connectionError => ⟨some path, 502, .fixed "External service error"⟩
    | .responds st chunks =>
        if st ≠ 200 then ⟨some path, st, .fixed "Document not available"⟩
        else ⟨some path, 200, .streamed (generate chunks)⟩

/-- Python `str.split('/')`. -/
def splitSlash (cs : List Char) : List (List Char) :=
  cs.foldr
    (fun c acc =>
      match acc with
      | [] => [[c]]
      | a :: rest => if c = '/' then [] :: a :: rest else (c :: a) :: rest)
    [[]]

/-- One step of the component loop inside `posixpath.normpath`: skip empty
and `.` components; keep `..` when at the start of a relative path or on
top of another kept `..`; otherwise `..` pops the previous component. -/
def normStep (islashes : Nat) (acc : List (List Char)) (comp : List Char) :
    List (List Char) :=
  if comp = [] ∨ comp = ['.'] then acc
  else if comp ≠ ['.', '.'] ∨ (islashes = 0 ∧ acc = []) ∨
      (acc ≠ [] ∧ acc.getLast? = some ['.', '.']) then acc ++ [comp]
  else if acc ≠ [] then acc.dropLast
  else acc

/-- `posixpath.normpath` (CPython): collapse `//` and `.` segments,
resolve `..` where possible, preserve exactly-two leading slashes. -/
def normpath (p : List Char) : List Char :=
  if p = [] then ['.']
  else
    let islashes : Nat :=
      if ['/', '/'].isPrefixOf p ∧ ¬ ['/', '/', '/'].isPrefixOf p then 2
      else if ['/'].isPrefixOf p then 1
      else 0
    let newComps := (splitSlash p).foldl (normStep islashes) []
    let path := List.replicate islashes '/' ++ List.intercalate ['/'] newComps
    if path = [] then ['.'] else path

/-- `posixpath.join(a, b)` for the two-argument case. -/
def posixJoin (a b : List Char) : List Char :=
  if ['/'].isPrefixOf b then b
  else if a = [] ∨ a.getLast? = some '/' then a ++ b
  else a ++ '/' :: b

/-- Modelled from the library the source pulls `safe_join` from
(`werkzeug.utils`): in werkzeug ≥ 2.0 `safe_join` normalizes each path,
returns `None` when the normalized path is absolute, is `..`, or starts
with `../` (on POSIX `_os_alt_seps` is empty), and otherwise returns the
joined path. -/
def safe_join (directory path : List Char) : Option (List Char) :=
  let dir := if directory = [] then ['.'] else directory
  let f := if path = [] then path else normpath path
  if ['/'].isPrefixOf f ∨ f = ['.', '.'] ∨ ['.', '.', '/'].isPrefixOf f then
    none
  else some (posixJoin dir f)

/-- The extension part of `os.path.splitext`: the suffix of the basename
from its last dot, unless every character before that dot is itself a
dot (so `.bashrc` has no extension). -/
def splitextExt (p : List Char) : List Char :=
  let rbase := (p.reverse.takeWhile (· ≠ '/'))
  match rbase.dropWhile (· ≠ '.') with
  | [] => []
  | _dot :: before =>
      if before.any (fun c => c ≠ '.') then
        '.' :: (rbase.takeWhile (· ≠ '.')).reverse
      else []

/-- `ALLOWED_EXTENSIONS` from the source. -/
def ALLOWED_EXTENSIONS : List String :=
  [".html", ".css", ".js", ".json", ".png", ".jpg", ".jpeg", ".gif",
   ".svg", ".ico", ".woff", ".woff2", ".ttf"]

/-- Python's substring test `needle in hay`. -/
def containsSub (needle hay : List Char) : Bool :=
  (hay.tails).any (fun t => needle.isPrefixOf t)

/-- Result of running a Python function that may raise an uncaught
`TypeError`. -/
inductive PyOutcome where
  | ok (b : Bool)
  | typeError
  deriving DecidableEq, Repr

/-- `is_safe_path(base_path, path, allowed_extensions)`.  The `try/except`
wraps only the `safe_join` call; with werkzeug ≥ 2.0 `safe_join` returns
`None` instead of raising, so the `except` never fires and
`os.path.isfile(None)` raises an uncaught `TypeError` (`typeError`).
Otherwise the checks run in source order: file existence, lower-cased
extension membership, then the `'..' in path or path.startswith('/')`
substring test. -/
def is_safe_path (isFile : List Char → Bool) (base_path path : List Char)
    (allowed : List String) : PyOutcome :=
  match safe_join base_path path with
  | none => .typeError
  | some full_path =>
      if !isFile full_path then .ok false
      else if !allowed.contains (pyLower (String.mk (splitextExt full_path)))
        then .ok false
      else if containsSub ['.', '.'] path || ['/'].isPrefixOf path then .ok false
      else .ok true

/-- Caller-visible result of a static route.
* `notFound` — `jsonify({'error': 'File not found'}), 404`;
* `served f` — `send_from_directory` delivered the file;
* `serverError` — an exception escaped the handler and Flask produced
  its default 500 page. -/
inductive StaticResponse where
  | notFound
  | served (filename : String)
  | serverError
  deriving DecidableEq, Repr

/-- Route handler `serve_static` (`/<path:filename>`): `is_safe_path('.',
filename, ALLOWED_EXTENSIONS)` gates the request; failure is the fixed
404 body, success serves the file. -/
def serve_static (isFile : List Char → Bool) (filename : String) :
    StaticResponse :=
  match is_safe_path isFile ['.'] filename.toList ALLOWED_EXTENSIONS with
  | .typeError => .serverError
  | .ok false => .notFound
  | .ok true => .served filename

/-- An HTTP response as the header middleware sees it. -/
structure HttpResponse where
  status : Nat
  headers : List (String × String)
  deriving DecidableEq, Repr

/-- `response.headers[k] = v` (werkzeug `Headers.__setitem__`): replace
any entry with the same name, compared case-insensitively. -/
def setHeader (hs : List (String × String)) (k v : String) :
    List (String × String) :=
  hs.filter (fun p => pyLower p.1 != pyLower k) ++ [(k, v)]

/-- The literal `Content-Security-Policy` value from the source. -/
def CSP_VALUE : String :=
  "default-src \x27self\x27; script-src \x27self\x27 \x27unsafe-inline\x27; style-src \x27self\x27 \x27unsafe-inline\x27; img-src \x27self\x27 data: https:; font-src \x27self\x27 https://fonts.gstatic.com; connect-src \x27self\x27"

/-- `add_security_headers`, registered with `@app.after_request` and so
applied by Flask to every response of every route and outcome; it sets
the five fixed headers unconditionally, reading nothing from the
request. -/
def add_security_headers (response : HttpResponse) : HttpResponse :=
  { response with
    headers :=
      setHeader
        (setHeader
          (setHeader
            (setHeader
              (setHeader response.headers "X-Content-Type-Options" "nosniff")
              "X-Frame-Options" "DENY")
            "X-XSS-Protection" "1; mode=block")
          "Strict-Transport-Security" "max-age=31536000; includeSubDomains")
        "Content-Security-Policy" CSP_VALUE }

example : serve_static (fun _ => false) "../secret.css" = .serverError := by
  decide
example : serve_static (fun _ => true) "../secret.css" = .serverError := by
  decide
example : serve_static (fun _ => true) "style.css" = .served "style.css" := by
  decide
example : serve_static (fun _ => true) "app.py" = .notFound := by decide
example : serve_static (fun _ => false) "style.css" = .notFound := by decide
example : serve_static (fun _ => true) "a/../b.css" = .notFound := by decide
example : normpath "a/../b.css".toList = "b.css".toList := by decide
example : safe_join ['.'] "../x".toList = none := by decide
example : splitextExt "js/app.min.JS".toList = ".JS".toList := by decide
example : splitextExt ".bashrc".toList = [] := by decide

example : validate_endpoint "/company/AB123456" = true := by decide
example : validate_endpoint "/company/123456" = false := by decide
example : validate_endpoint "/search/companies" = true := by decide
example : validate_endpoint "/document/abc/content" = false := by decide
example : validate_endpoint "/officers/a-b_c/appointments" = true := by decide
example : matchCompanyNumberCI "ABC123\n".toList = true := by decide
example : pyUpper "ab1C" = "AB1C" := by decide
example : parsePyInt " -42 " = some (-42) := by decide
example : parsePyInt "" = none := by decide
example : parsePyInt "abc" = none := by decide

/-! ## Streaming relay: the byte ceiling (claims about `generate`) -/

theorem generateAux_totalLen_le (d : Nat) (chunks : List (List Nat))
    (h : d ≤ MAX_SIZE) :
    d + totalLen (generateAux d chunks) ≤ MAX_SIZE := by
  induction chunks generalizing d with
  | nil => simpa [generateAux, totalLen] using h
  | cons c rest ih =>
      by_cases hc : MAX_SIZE < d + c.length
      · simpa [generateAux, hc, totalLen] using h
      · push_neg at hc
        have hrec := ih (d + c.length) hc
        simp only [generateAux, if_neg (Nat.not_lt.mpr hc), totalLen,
          List.map_cons, List.sum_cons] at hrec ⊢
        omega

theorem generateAux_of_total_le (d : Nat) (chunks : List (List Nat))
    (h : d + totalLen chunks ≤ MAX_SIZE) :
    generateAux d chunks = chunks := by
  induction chunks generalizing d with
  | nil => simp [generateAux]
  | cons c rest ih =>
      simp only [totalLen, List.map_cons, List.sum_cons] at h
      have hc : ¬ MAX_SIZE < d + c.length := by omega
      have hrec := ih (d + c.length) (by simpa [totalLen] using (by omega :
        d + c.length + (rest.map List.length).sum ≤ MAX_SIZE))
      simp [generateAux, hc, hrec]

/-- C4: the generator never emits more than the 50 MiB ceiling in total,
and the moment the running total would exceed the ceiling the next chunk
is not yielded and the stream ends. -/
theorem stream_ceiling_C4 :
    (∀ chunks : List (List Nat), totalLen (generate chunks) ≤ MAX_SIZE) ∧
    (∀ (d : Nat) (chunk : List Nat) (rest : List (List Nat)),
      MAX_SIZE < d + chunk.length → generateAux d (chunk :: rest) = []) := by
  constructor
  · intro chunks
    have h := generateAux_totalLen_le 0 chunks (Nat.zero_le _)
    simpa [generate] using h
  · intro d chunk rest h
    simp [generateAux, h]

/-- C4 witness: a chunk that would push the total past the ceiling is not
yielded. -/
theorem stream_ceiling_C4_witness :
    generateAux MAX_SIZE ([0] :: [[1]]) = [] :=
  stream_ceiling_C4.2 MAX_SIZE [0] [[1]] (by simp)

/-- C5: when the upstream stream fits under the ceiling, the generator
yields exactly the upstream chunks, so concatenating what it yields
reproduces the upstream body. -/
theorem stream_roundtrip_C5 :
    ∀ chunks : List (List Nat), totalLen chunks ≤ MAX_SIZE →
      generate chunks = chunks ∧ (generate chunks).flatten = chunks.flatten := by
  intro chunks h
  have heq : generate chunks = chunks :=
    generateAux_of_total_le 0 chunks (by simpa using h)
  exact ⟨heq, by rw [heq]⟩

/-- C5 witness at a small concrete stream. -/
theorem stream_roundtrip_C5_witness :
    generate [[1, 2], [3]] = [[1, 2], [3]] ∧
      (generate [[1, 2], [3]]).flatten = [[1, 2], [3]].flatten :=
  stream_roundtrip_C5 [[1, 2], [3]] (by decide)

/-! ## Parameter sanitizer -/

/-- C7: with the configured defaults (which all lie inside their
`[min_val, max_val]` ranges, as at every call site in the source) the
sanitizer always returns a value in range; unparseable input returns
exactly the default, and parseable input is clamped into range. -/
theorem sanitize_integer_param_C7 :
    ∀ (value : Option Int) (default min_val max_val : Int),
      min_val ≤ default → default ≤ max_val →
      (min_val ≤ sanitize_integer_param value default min_val max_val ∧
        sanitize_integer_param value default min_val max_val ≤ max_val) ∧
      (value = none →
        sanitize_integer_param value default min_val max_val = default) ∧
      (∀ n : Int, value = some n →
        sanitize_integer_param value default min_val max_val =
          max min_val (min n max_val)) := by
  intro value default min_val max_val h1 h2
  cases value <;> simp [sanitize_integer_param] <;> omega

/-- C7 witness: the empty string fails `int()` and yields exactly the
configured default, inside the configured range. -/
theorem sanitize_integer_param_C7_witness :
    sanitize_integer_param (parsePyInt "") 20 1 1000 = 20 :=
  (sanitize_integer_param_C7 (parsePyInt "") 20 1 1000 (by decide)
    (by decide)).2.1 (by decide)

/-! ## Upstream request executor: what reaches the caller -/

/-- C1 counterexample: an upstream 503 whose body parses as JSON is passed
through verbatim (`jsonify(response.json()), response.status_code`) —
the body on this failure path is the upstream body, not a fixed generic
one. -/
theorem upstream_error_passthrough_counterexample_C1 :
    ch_api_request true "/search/companies"
        (.responds 503 (some "upstream failure detail")) =
      ⟨some "/search/companies", 503,
        .passthrough "upstream failure detail"⟩ := by
  decide

/-- C1 amended: for any upstream status other than 401 and 404 whose body
parses as JSON, the gateway passes through both the status and the
upstream body verbatim. -/
theorem upstream_error_passthrough_C1 :
    ∀ (endpoint : String) (st : Nat) (j : String),
      validate_endpoint endpoint = true → st ≠ 401 → st ≠ 404 →
      ch_api_request true endpoint (.responds st (some j)) =
        ⟨some endpoint, st, .passthrough j⟩ := by
  intro endpoint st j hv h1 h4
  simp [ch_api_request, hv, h1, h4]

/-- C1 amended, witness at a concrete 429 response. -/
theorem upstream_error_passthrough_C1_witness :
    ch_api_request true "/search/officers" (.responds 429 (some "limit")) =
      ⟨some "/search/officers", 429, .passthrough "limit"⟩ :=
  upstream_error_passthrough_C1 "/search/officers" 429 "limit" (by decide)
    (by decide) (by decide)

/-- C2, the code evaluated at the failing input: the company number
`123456` passes the route handler's 6–8 alphanumeric format check, but
the allowlist patterns require at least 8 characters, so the fully
substituted path is rejected and the caller gets the 400
`Invalid endpoint requested` response without any upstream call. -/
theorem company_number_min_length_C2 :
    matchCompanyNumberCI "123456".toList = true ∧
    validate_endpoint "/company/123456" = false ∧
    get_company_profile true "123456" (.responds 200 (some "profile")) =
      ⟨none, 400, .fixed "Invalid endpoint requested"⟩ := by
  decide

/-- C3 counterexample: the document route issues its upstream call with a
path that the endpoint allowlist validator does not accept — no
`validate_endpoint` check guards this outbound request. -/
theorem document_route_no_allowlist_counterexample_C3 :
    (get_document_content true "abc" (.responds 200 [[1]])).callPath =
      some "/document/abc/content" ∧
    validate_endpoint "/document/abc/content" = false := by
  decide

/-- C9 counterexample: a 2xx upstream response whose body is not valid
JSON makes `response.json()` raise `requests.exceptions.JSONDecodeError`,
which requests ≥ 2.27 derives from `RequestException`; the
`except RequestException` clause answers 502 `External service error`,
not 500 `Internal server error`. -/
theorem non_json_2xx_counterexample_C9 :
    ch_api_request true "/search/companies" (.responds 200 none) =
      ⟨some "/search/companies", 502, .fixed "External service error"⟩ ∧
    (ch_api_request true "/search/companies" (.responds 200 none)).status ≠
      500 := by
  decide

/-- C9 amended: for any status outside 401/404 with a body that fails
JSON parsing, the caller receives 502 with the fixed body
`External service error` — the unparseable body itself is never
forwarded. -/
theorem non_json_2xx_C9 :
    ∀ (endpoint : String) (st : Nat),
      validate_endpoint endpoint = true → st ≠ 401 → st ≠ 404 →
      ch_api_request true endpoint (.responds st none) =
        ⟨some endpoint, 502, .fixed "External service error"⟩ := by
  intro endpoint st hv h1 h4
  simp [ch_api_request, hv, h1, h4]

/-- C9 amended, witness at a concrete 200 response. -/
theorem non_json_2xx_C9_witness :
    ch_api_request true "/search/officers" (.responds 200 none) =
      ⟨some "/search/officers", 502, .fixed "External service error"⟩ :=
  non_json_2xx_C9 "/search/officers" 200 (by decide) (by decide) (by decide)

/-- C6, the code evaluated at the failing input: for the static request
`../secret.css` (a path escaping the base directory), werkzeug ≥ 2.0's
`safe_join` returns `None` instead of raising, the `except` around it
never fires, and `os.path.isfile(None)` raises an uncaught `TypeError`:
the caller sees Flask's 500 page, not the uniform 404 — whether or not
any file exists. -/
theorem static_traversal_crash_C6 :
    serve_static (fun _ => false) "../secret.css" = .serverError ∧
    serve_static (fun _ => true) "../secret.css" = .serverError := by
  decide

/-- The outbound metadata call is issued exactly when the key is present
and `validate_endpoint` accepted, and then its path is the validated
endpoint itself. -/
theorem ch_api_request_callPath_eq (key : Bool) (ep : String)
    (up : UpstreamBehavior) :
    (ch_api_request key ep up).callPath =
      if key && validate_endpoint ep then some ep else none := by
  cases key with
  | false => simp [ch_api_request]
  | true =>
    by_cases hv : validate_endpoint ep
    · cases up with
      | timeout => simp [ch_api_request, hv]
      | connectionError => simp [ch_api_request, hv]
      | responds st bj =>
          by_cases h1 : st = 401 <;> by_cases h4 : st = 404 <;>
            rcases bj with _ | j <;> simp [ch_api_request, hv, h1, h4]
    · simp [ch_api_request, hv]

/-- The outbound document call is issued exactly when the key is present
and the document-id sanitizer accepted, and then its path is the fixed
template instantiated with the sanitized id. -/
theorem get_document_content_callPath_eq (key : Bool) (id : String)
    (up : DocUpstream) :
    (get_document_content key id up).callPath =
      if key && matchIdentifier id.toList then
        some ("/document/" ++ id ++ "/content")
      else none := by
  cases key with
  | false => simp [get_document_content]
  | true =>
    by_cases hm : matchIdentifier id.data
    · cases up with
      | timeout => simp [get_document_content, hm]
      | connectionError => simp [get_document_content, hm]
      | responds st chunks =>
          by_cases h2 : st = 200 <;> simp [get_document_content, hm, h2]
    · simp [get_document_content, hm]

/-- C3 amended: every metadata route issues its upstream call only after
`validate_endpoint` accepted the exact path it requests, while the
document route issues its call only after the document-id sanitizer
accepted, with the path built from the fixed template and no allowlist
validation. -/
theorem sanitizer_before_upstream_C3 :
    (∀ (key : Bool) (endpoint : String) (up : UpstreamBehavior) (p : String),
      (ch_api_request key endpoint up).callPath = some p →
      validate_endpoint p = true ∧ p = endpoint) ∧
    (∀ (key : Bool) (document_id : String) (up : DocUpstream) (p : String),
      (get_document_content key document_id up).callPath = some p →
      matchIdentifier document_id.toList = true ∧
      p = "/document/" ++ document_id ++ "/content") := by
  constructor
  · intro key endpoint up p h
    rw [ch_api_request_callPath_eq] at h
    by_cases hc : key && validate_endpoint endpoint
    · rw [if_pos hc] at h
      cases h
      exact ⟨(Bool.and_eq_true _ _ ▸ hc).2, rfl⟩
    · rw [if_neg hc] at h
      cases h
  · intro key document_id up p h
    rw [get_document_content_callPath_eq] at h
    by_cases hc : key && matchIdentifier document_id.toList
    · rw [if_pos hc] at h
      cases h
      exact ⟨(Bool.and_eq_true _ _ ▸ hc).2, rfl⟩
    · rw [if_neg hc] at h
      cases h

/-- C3 amended, witness: a concrete validated metadata call. -/
theorem sanitizer_before_upstream_C3_witness :
    validate_endpoint "/search/companies" = true ∧
      "/search/companies" = "/search/companies" :=
  sanitizer_before_upstream_C3.1 true "/search/companies"
    (.responds 200 (some "results")) "/search/companies" (by decide)

/-! ## Security header middleware -/

theorem lookup_filter_keep (k : String) (q : String × String → Bool)
    (hq : ∀ v, q (k, v) = true) :
    ∀ hs : List (String × String), (hs.filter q).lookup k = hs.lookup k := by
  intro hs
  induction hs with
  | nil => rfl
  | cons p t ih =>
      obtain ⟨k1, v1⟩ := p
      by_cases hp : k1 = k
      · subst hp
        rw [List.filter_cons_of_pos (hq v1)]
        simp [List.lookup]
      · have hbeq : (k == k1) = false := by
          simp [hp]
          exact fun h => hp h.symm
        by_cases hqp : q (k1, v1) = true
        · rw [List.filter_cons_of_pos hqp]
          simp [List.lookup, hbeq, ih]
        · rw [List.filter_cons_of_neg (by simpa using hqp)]
          simp [List.lookup, hbeq, ih]

theorem lookup_append (k : String) :
    ∀ A B : List (String × String),
      (A ++ B).lookup k = ((A.lookup k).or (B.lookup k)) := by
  intro A B
  induction A with
  | nil => simp [List.lookup]
  | cons p t ih =>
      obtain ⟨k1, v1⟩ := p
      by_cases hp : k = k1
      · subst hp
        simp [List.lookup]
      · have hbeq : (k == k1) = false := beq_eq_false_iff_ne.mpr hp
        simp [List.lookup, hbeq, ih]

theorem lookup_filter_out (k : String) (q : String × String → Bool)
    (hq : ∀ v, q (k, v) = false) :
    ∀ hs : List (String × String), (hs.filter q).lookup k = none := by
  intro hs
  induction hs with
  | nil => rfl
  | cons p t ih =>
      obtain ⟨k1, v1⟩ := p
      by_cases hqp : q (k1, v1) = true
      · have hne : (k == k1) = false := by
          refine beq_eq_false_iff_ne.mpr ?_
          intro h
          rw [← h] at hqp
          exact absurd hqp (by simp [hq v1])
        rw [List.filter_cons_of_pos hqp]
        simp [List.lookup, hne, ih]
      · rw [List.filter_cons_of_neg (by simpa using hqp)]
        exact ih

/-- Setting a header makes it present with exactly that value. -/
theorem lookup_setHeader_self (hs : List (String × String)) (k v : String) :
    (setHeader hs k v).lookup k = some v := by
  unfold setHeader
  rw [lookup_append,
    lookup_filter_out k (fun p => pyLower p.1 != pyLower k)
      (fun w => by simp) hs]
  simp [List.lookup]

/-- Setting a header with a different (case-insensitively compared) name
leaves the lookup of `k` unchanged. -/
theorem lookup_setHeader_ne (hs : List (String × String))
    (k k' v' : String) (hk : pyLower k ≠ pyLower k') :
    (setHeader hs k' v').lookup k = hs.lookup k := by
  unfold setHeader
  rw [lookup_append,
    lookup_filter_keep k (fun p => pyLower p.1 != pyLower k')
      (fun w => by simpa using hk) hs]
  have hkk : (k == k') = false := by
    refine beq_eq_false_iff_ne.mpr ?_
    intro h
    exact absurd (congrArg pyLower h) hk
  simp [List.lookup, hkk]

/-- C8: every response leaving the gateway — `add_security_headers` is
registered with `@app.after_request` and so post-processes every route's
response, whatever its outcome — carries the five fixed security
headers with their fixed, request-independent values. -/
theorem security_headers_C8 :
    ∀ response : HttpResponse,
      (add_security_headers response).headers.lookup
          "X-Content-Type-Options" = some "nosniff" ∧
      (add_security_headers response).headers.lookup "X-Frame-Options" =
        some "DENY" ∧
      (add_security_headers response).headers.lookup "X-XSS-Protection" =
        some "1; mode=block" ∧
      (add_security_headers response).headers.lookup
          "Strict-Transport-Security" =
        some "max-age=31536000; includeSubDomains" ∧
      (add_security_headers response).headers.lookup
          "Content-Security-Policy" = some CSP_VALUE := by
  intro response
  simp only [add_security_headers]
  refine ⟨?_, ?_, ?_, ?_, ?_⟩
  · rw [lookup_setHeader_ne _ "X-Content-Type-Options"
        "Content-Security-Policy" CSP_VALUE (by decide),
      lookup_setHeader_ne _ "X-Content-Type-Options"
        "Strict-Transport-Security" "max-age=31536000; includeSubDomains"
        (by decide),
      lookup_setHeader_ne _ "X-Content-Type-Options" "X-XSS-Protection"
        "1; mode=block" (by decide),
      lookup_setHeader_ne _ "X-Content-Type-Options" "X-Frame-Options"
        "DENY" (by decide),
      lookup_setHeader_self]
  · rw [lookup_setHeader_ne _ "X-Frame-Options" "Content-Security-Policy"
        CSP_VALUE (by decide),
      lookup_setHeader_ne _ "X-Frame-Options" "Strict-Transport-Security"
        "max-age=31536000; includeSubDomains" (by decide),
      lookup_setHeader_ne _ "X-Frame-Options" "X-XSS-Protection"
        "1; mode=block" (by decide),
      lookup_setHeader_self]
  · rw [lookup_setHeader_ne _ "X-XSS-Protection" "Content-Security-Policy"
        CSP_VALUE (by decide),
      lookup_setHeader_ne _ "X-XSS-Protection" "Strict-Transport-Security"
        "max-age=31536000; includeSubDomains" (by decide),
      lookup_setHeader_self]
  · rw [lookup_setHeader_ne _ "Strict-Transport-Security"
        "Content-Security-Policy" CSP_VALUE (by decide),
      lookup_setHeader_self]
  · rw [lookup_setHeader_self]

/-! ## Company-number uppercasing before the allowlist check -/

theorem charToNat_ofNat (m : Nat) (h : m < 55296) :
    (Char.ofNat m).toNat = m := by
  have hv : m.isValidChar := Or.inl h
  unfold Char.ofNat
  rw [dif_pos hv]
  rfl

theorem toUpper_of_lower (c : Char) (h : 97 ≤ c.toNat ∧ c.toNat ≤ 122) :
    Char.toUpper c = Char.ofNat (c.toNat - 32) := by
  simp only [Char.toUpper]
  rw [if_pos h]

theorem toUpper_eq_self (c : Char) (h : ¬(97 ≤ c.toNat ∧ c.toNat ≤ 122)) :
    Char.toUpper c = c := by
  simp only [Char.toUpper]
  rw [if_neg h]

theorem toUpper_toUpper (c : Char) :
    Char.toUpper (Char.toUpper c) = Char.toUpper c := by
  by_cases hl : 97 ≤ c.toNat ∧ c.toNat ≤ 122
  · rw [toUpper_of_lower c hl]
    apply toUpper_eq_self
    rw [charToNat_ofNat _ (by omega)]
    omega
  · rw [toUpper_eq_self c hl, toUpper_eq_self c hl]

theorem isUpperAlnum_toUpper (c : Char) (h : isAlnumCI c = true) :
    isUpperAlnum (Char.toUpper c) = true := by
  by_cases hl : 97 ≤ c.toNat ∧ c.toNat ≤ 122
  · rw [toUpper_of_lower c hl]
    have ht : (Char.ofNat (c.toNat - 32)).toNat = c.toNat - 32 :=
      charToNat_ofNat _ (by omega)
    simp [isUpperAlnum, isUpperAlpha, isDigitChar, ht]
    omega
  · rw [toUpper_eq_self c hl]
    revert h
    simp [isAlnumCI, isUpperAlnum, isUpperAlpha, isLowerAlpha, isDigitChar]
    omega

theorem isAlnumCI_toUpper (c : Char) :
    isAlnumCI (Char.toUpper c) = isAlnumCI c := by
  by_cases hl : 97 ≤ c.toNat ∧ c.toNat ≤ 122
  · rw [toUpper_of_lower c hl]
    have ht : (Char.ofNat (c.toNat - 32)).toNat = c.toNat - 32 :=
      charToNat_ofNat _ (by omega)
    rw [Bool.eq_iff_iff]
    simp [isAlnumCI, isUpperAlpha, isLowerAlpha, isDigitChar, ht]
    omega
  · rw [toUpper_eq_self c hl]

theorem toUpper_eq_newline (c : Char) :
    Char.toUpper c = '\n' ↔ c = '\n' := by
  constructor
  · intro h
    by_cases hl : 97 ≤ c.toNat ∧ c.toNat ≤ 122
    · exfalso
      have hc := congrArg Char.toNat h
      rw [toUpper_of_lower c hl, charToNat_ofNat _ (by omega)] at hc
      rw [show Char.toNat '\n' = 10 from rfl] at hc
      omega
    · rwa [toUpper_eq_self c hl] at h
  · intro h
    subst h
    decide

theorem pyDollarEnd_map_toUpper (l : List Char) :
    pyDollarEnd (l.map Char.toUpper) = pyDollarEnd l := by
  cases l with
  | nil => rfl
  | cons a t =>
      cases t with
      | nil => simp [pyDollarEnd, toUpper_eq_newline]
      | cons b u => simp [pyDollarEnd]

theorem pyUpper_idem (s : String) : pyUpper (pyUpper s) = pyUpper s := by
  unfold pyUpper
  have hdata : (String.mk (s.data.map Char.toUpper)).data =
      s.data.map Char.toUpper := rfl
  rw [hdata, List.map_map]
  congr 1
  refine List.map_congr_left ?_
  intro a _
  simp [Function.comp, toUpper_toUpper]

theorem matchCompanyNumberCI_pyUpper (s : String) :
    matchCompanyNumberCI (pyUpper s).toList = matchCompanyNumberCI s.toList := by
  show matchCompanyNumberCI (s.data.map Char.toUpper) =
    matchCompanyNumberCI s.data
  simp only [matchCompanyNumberCI, reMatchBounded]
  rw [List.takeWhile_map, List.dropWhile_map,
    show (isAlnumCI ∘ Char.toUpper) = isAlnumCI from funext isAlnumCI_toUpper,
    List.length_map, pyDollarEnd_map_toUpper]

/-- C10 counterexample: Python's `$` also matches just before a final
newline, so `ABC123\n` passes the handler's case-insensitive 6–8
alphanumeric check, yet its uppercased form — which is what the handler
splices into the path handed to `validate_endpoint` — is not made of
uppercase letters and digits only. -/
theorem company_upper_newline_counterexample_C10 :
    matchCompanyNumberCI "ABC123\n".toList = true ∧
    ((pyUpper "ABC123\n").toList.all isUpperAlnum) = false := by
  decide

/-- C10 amended: after the handler's check passes, every character of the
uppercased company number is an uppercase letter or digit except for the
single trailing newline Python's `$` tolerates; and the handler's
outcome is unchanged under uppercasing the identifier, so acceptance at
the external interface is case-insensitive even though the allowlist
patterns match the uppercase class only. -/
theorem company_number_uppercase_C10 :
    ∀ company_number : String,
      (matchCompanyNumberCI company_number.toList = true →
        ((pyUpper company_number).toList.all
          (fun c => isUpperAlnum c || c = '\n')) = true) ∧
      (∀ (key : Bool) (up : UpstreamBehavior),
        get_company_profile key company_number up =
          get_company_profile key (pyUpper company_number) up) := by
  intro s
  constructor
  · intro hm
    rw [List.all_eq_true]
    intro c hc
    have hc2 : c ∈ s.data.map Char.toUpper := hc
    obtain ⟨a, ha, rfl⟩ := List.mem_map.mp hc2
    have hsplit : isAlnumCI a = true ∨ a = '\n' := by
      replace hm : reMatchBounded isAlnumCI 6 8 s.data = true := hm
      simp only [reMatchBounded, Bool.and_eq_true, decide_eq_true_eq,
        pyDollarEnd, Bool.or_eq_true] at hm
      obtain ⟨-, hend⟩ := hm
      have hmem : a ∈ s.data.takeWhile isAlnumCI ∨
          a ∈ s.data.dropWhile isAlnumCI := by
        rw [← List.mem_append, List.takeWhile_append_dropWhile]
        exact ha
      rcases hmem with h1 | h2
      · exact Or.inl (List.mem_takeWhile_imp h1)
      · rcases hend with he | he
        · rw [he] at h2
          cases h2
        · rw [he] at h2
          simp only [List.mem_singleton] at h2
          exact Or.inr h2
    rcases hsplit with h | h
    · simp [isUpperAlnum_toUpper _ h]
    · subst h
      decide
  · intro key up
    unfold get_company_profile
    rw [matchCompanyNumberCI_pyUpper, pyUpper_idem]

/-- C10 amended, witness: a concrete lower-case company number. -/
theorem company_number_uppercase_C10_witness :
    ((pyUpper "ab123456").toList.all
      (fun c => isUpperAlnum c || c = '\n')) = true :=
  (company_number_uppercase_C10 "ab123456").1 (by decide)
